import Mathlib

/-!
Verification development for the FeedGenesis asset-library job reconciler.

The definitions below are a shallow embedding of
`src/components/inventory/assets/AssetLibrary.tsx`: the single-job status
check (`handleRefreshVideo`), the sentinel/free-text external-id extraction,
the upload gate and in-flight classification predicates, and the progress
simulation effect.  JavaScript strings are modelled as Lean `String`
(operating on their character lists, which matches the ASCII sentinels and
identifiers used by the code); JavaScript truthiness of optional strings is
modelled explicitly.  The backend endpoints the component calls
(`templatesAPI.heygen.getStatus`, `templatesAPI.heygen.recoverPending`,
`assetsAPI.updateAsset`) are not part of the sources; the status endpoint is
a function parameter, and the record-store update and bulk recovery are
modelled from the spec where a claim needs them.
-/

/-- JavaScript truthiness of an optional string: `null`/`undefined` and the
empty string are falsy. -/
def strTruthy : Option String → Bool
  | none => false
  | some s => !(s == "")

/-- Character-list version of `String.prototype.startsWith`. -/
def listStarts : List Char → List Char → Bool
  | _, [] => true
  | [], _ :: _ => false
  | c :: cs, p :: ps => c == p && listStarts cs ps

/-- `s.startsWith(pre)` on the character sequence. -/
def strStarts (s pre : String) : Bool := listStarts s.data pre.data

/-- Drop the first `n` characters of a string (here used to strip the
`pending_` sentinel; the source uses `replace('pending_', '')`, which
replaces only the first occurrence, and is guarded by `startsWith`, so it is
exactly a prefix drop). -/
def strDrop (s : String) (n : Nat) : String := String.mk (s.data.drop n)

/-- `\w` of the JavaScript regex: ASCII letters, digits and underscore. -/
def isWordChar (c : Char) : Bool := c.isAlpha || c.isDigit || c == '_'

/-- Case-insensitively match a (lowercase) pattern at the head of the input,
returning the rest of the input on success. -/
def ciMatch : List Char → List Char → Option (List Char)
  | [], rest => some rest
  | _ :: _, [] => none
  | p :: ps, c :: cs => if c.toLower == p then ciMatch ps cs else none

/-- Maximal run of word characters at the head of the input (the greedy
`(\w+)` capture). -/
def takeWord : List Char → List Char
  | [] => []
  | c :: cs => if isWordChar c then c :: takeWord cs else []

/-- Try to match `/video_id[:_](\w+)/i` at this exact position, returning the
captured group. -/
def matchVideoIdAt (cs : List Char) : Option (List Char) :=
  match ciMatch "video_id".data cs with
  | none => none
  | some rest =>
    match rest with
    | [] => none
    | c :: cs2 =>
      if c == ':' || c == '_' then
        match takeWord cs2 with
        | [] => none
        | w => some w
      else none

/-- Leftmost match of `/video_id[:_](\w+)/i`, as JavaScript
`description.match(...)` computes it. -/
def findVideoId : List Char → Option (List Char)
  | [] => none
  | c :: cs =>
    match matchVideoIdAt (c :: cs) with
    | some w => some w
    | none => findVideoId cs

/-- `description.match(/video_id[:_](\w+)/i)`, first captured group. -/
def descMatch : Option String → Option String
  | none => none
  | some d => (findVideoId d.data).map String.mk

/-- The `ExtendedAssetLibraryItem` record as the component consumes it. -/
structure Asset where
  id : String
  title : String
  description : Option String
  instruction : String
  tags : Option (List String)
  favorited : Bool
  asset_type : String
  asset_url : Option String
  content : Option String
  source_system : Option String
  created_at : String
  gif_url : Option String
deriving DecidableEq

/-- External-id extraction of `handleRefreshVideo` (lines 231-241): strip
the `pending_` sentinel from `asset_url` when present, otherwise try the
`video_id` pattern in the description. -/
def extractVideoId (a : Asset) : Option String :=
  match a.asset_url with
  | some u =>
      if strStarts u "pending_" then some (strDrop u 8)
      else descMatch a.description
  | none => descMatch a.description

/-- Normalized payload of the per-video status endpoint
(`response.data.data`): `{ status, videoUrl, errorMessage }`. -/
structure StatusData where
  status : String
  videoUrl : Option String
  errorMessage : Option String
deriving DecidableEq

/-- Result of one call to the per-video status endpoint: a successful
response, a response with `success: false` (which the component turns into a
thrown `Error`), or a call that itself throws (network failure / 5xx). -/
inductive ProviderResult
  | success (d : StatusData)
  | apiError (msg : Option String)
  | thrown
deriving DecidableEq

/-- One `updateAsset(assetId, updates)` call; the `updates` payload of the
source has exactly the optional keys `url` and `status`. -/
structure AssetUpdate where
  assetId : String
  url : Option String
  status : Option String
deriving DecidableEq

/-- The observable ways `handleRefreshVideo` can finish (which toast it
shows / which path it took).  `caughtError` is the outer `catch` branch:
every thrown error — asset not found, provider failure, rejected store
write — is swallowed there and surfaced as a toast, never rethrown. -/
inductive RefreshOutcome
  | caughtError
  | bulkRecovered
  | videoReady
  | videoFailed
  | stillProcessing
deriving DecidableEq

/-- Everything observable about one `handleRefreshVideo` run: the outcome,
which external ids were sent to the per-video status endpoint, whether the
bulk-recovery endpoint was invoked, and the successful `updateAsset` writes. -/
structure RefreshResult where
  outcome : RefreshOutcome
  contacted : List String
  calledBulk : Bool
  writes : List AssetUpdate
deriving DecidableEq

/-- The no-extractable-id fallback (lines 243-259): call the backend bulk
recovery endpoint; on `success: false` the component throws and lands in the
outer catch. -/
def bulkBranch (bulkOk : Bool) : RefreshResult :=
  { outcome := if bulkOk then .bulkRecovered else .caughtError,
    contacted := [], calledBulk := true, writes := [] }

/-- Classification of a status response (lines 264-292): completed with a
truthy `videoUrl` writes `{url, status: completed}`; failed writes
`{status: failed}`; anything else only shows a "Still Processing" toast.
`storeOk` is whether `updateAsset` succeeds; when it throws, control lands in
the outer catch with no recorded write. -/
def classifyStatusResponse (assetId : String) (storeOk : Bool) :
    ProviderResult → RefreshOutcome × List AssetUpdate
  | .thrown => (.caughtError, [])
  | .apiError _ => (.caughtError, [])
  | .success d =>
    if d.status == "completed" && strTruthy d.videoUrl then
      if storeOk then
        (.videoReady, [{ assetId := assetId, url := d.videoUrl, status := some "completed" }])
      else (.caughtError, [])
    else if d.status == "failed" then
      if storeOk then
        (.videoFailed, [{ assetId := assetId, url := none, status := some "failed" }])
      else (.caughtError, [])
    else (.stillProcessing, [])

/-- `handleRefreshVideo` (lines 217-301): look the asset up in the current
component state, extract an external id (sentinel-prefixed URL first, then
the description pattern; an empty extraction is falsy), fall back to bulk
recovery when none is found, otherwise query the per-video status endpoint
and classify.  All errors are caught by the outer `try/catch`. -/
def handleRefreshVideo (assets : List Asset) (assetId : String)
    (getStatus : String → ProviderResult) (bulkOk storeOk : Bool) : RefreshResult :=
  match assets.find? (fun a => a.id == assetId) with
  | none => { outcome := .caughtError, contacted := [], calledBulk := false, writes := [] }
  | some asset =>
    match extractVideoId asset with
    | none => bulkBranch bulkOk
    | some v =>
      if v = "" then bulkBranch bulkOk
      else
        let p := classifyStatusResponse assetId storeOk (getStatus v)
        { outcome := p.1, contacted := [v], calledBulk := false, writes := p.2 }

/-- The in-flight filter of the progress-simulation effect (line 67-69):
`asset_url === 'processing' || asset_url === 'pending' ||
asset_url?.startsWith('pending_')`. -/
def processingFilter (a : Asset) : Bool :=
  a.asset_url == some "processing" || a.asset_url == some "pending" ||
    (match a.asset_url with
     | some s => strStarts s "pending_"
     | none => false)

/-- Per-asset predicate of `hasPendingHeyGenVideos` (lines 364-366). -/
def pendingHeyGen (a : Asset) : Bool :=
  (a.source_system == some "heygen") &&
    (a.asset_url == some "pending" || a.asset_url == some "processing" ||
      (match a.asset_url with
       | some s => strStarts s "pending_"
       | none => false))

/-- The `handleUpload` guard (line 335), which is also the upload button's
render guard (line 651): video type, truthy URL, and the URL is not exactly
`processing` or `pending`. -/
def uploadGate (a : Asset) : Bool :=
  a.asset_type == "video" && strTruthy a.asset_url &&
    !(a.asset_url == some "processing") && !(a.asset_url == some "pending")

/-- Modelled from the spec: the Job Record Store's view of a persisted job
record (`update(jobId, fields)` in section 6; the backend assets route is
not under the sources).  Only the fields the claims mention are carried. -/
structure StoredRecord where
  url : Option String
  status : Option String
  errorMessage : Option String
deriving DecidableEq

/-- Modelled from the spec: `update(jobId, fields)` applies a partial update
of exactly the supplied fields; the `updateAsset` payload can carry only
`url` and `status`, so `errorMessage` is never touched by it. -/
def applyUpdate (r : StoredRecord) (w : AssetUpdate) : StoredRecord :=
  { url := match w.url with | some u => some u | none => r.url,
    status := match w.status with | some s => some s | none => r.status,
    errorMessage := r.errorMessage }

/-- Apply every recorded write addressed to `id` to a stored record, in
order. -/
def applyWrites (r : StoredRecord) (ws : List AssetUpdate) (id : String) : StoredRecord :=
  ws.foldl (fun acc w => if w.assetId == id then applyUpdate acc w else acc) r

/-- `const totalDuration = 300` (5 minutes in seconds, line 82). -/
def totalDuration : ℚ := 300

/-- `const targetProgress = 92` (target 92 percent before completion, line 83). -/
def targetProgress : ℚ := 92

/-- The progress formula of the simulation effect (lines 85-93): after
`totalDuration` seconds stay at `targetProgress`, otherwise linear progress
clamped by `Math.min`. -/
def estimate (elapsedTime : ℚ) : ℚ :=
  if totalDuration ≤ elapsedTime then targetProgress
  else min targetProgress (elapsedTime / totalDuration * targetProgress)

/-- The component-local progress state kept for one asset inside
`progressStates`: the stored percentage (key `asset.id`) and the stored
start time in milliseconds (key `asset.id + "_startTime"`). -/
structure ProgressEntry where
  progress : Option ℚ
  startTime : Option ℚ
deriving DecidableEq

/-- JavaScript falsiness of an optional number: `undefined` and a stored `0`
are both falsy (`!newStates[...]`, line 96). -/
def jsFalsyNum : Option ℚ → Bool
  | none => true
  | some x => decide (x = 0)

/-- `v || dflt` on an optional number: a falsy stored value (absent or `0`)
yields the default (`newStates[...] || Date.now()`, line 80). -/
def jsNumOr (v : Option ℚ) (dflt : ℚ) : ℚ :=
  if jsFalsyNum v then dflt else v.getD dflt

/-- One interval tick of the progress-simulation effect (lines 73-107) for
the case where this asset is the only in-flight video, so `hasUpdates` is
exactly this asset's progress-change flag and line 106's
`return hasUpdates ? newStates : prev` returns the previous state unchanged
— discarding the freshly seeded start time — whenever the computed
percentage equals the current one.  The two `Date.now()` reads at lines 80
and 81 are distinct calls and may straddle a millisecond boundary, so they
are modelled as separate timestamps `tStart ≤ tElapsed` (in milliseconds).
The start-time lookup and the seeding guard use JavaScript falsiness (a
stored `0` counts as absent); `currentProgress = newStates[id] || 0` (line
79) coincides with `Option.getD 0` because the only falsy number is `0`.
When an update does happen, the start time is seeded only if the stored one
was falsy (lines 96-98) and the new percentage is stored (lines 100-103). -/
def tick (e : ProgressEntry) (tStart tElapsed : ℚ) : ProgressEntry :=
  let currentProgress := e.progress.getD 0
  let startTime := jsNumOr e.startTime tStart
  let elapsedTime := (tElapsed - startTime) / 1000
  let newProgress := estimate elapsedTime
  let seeded := if jsFalsyNum e.startTime then some startTime else e.startTime
  if newProgress = currentProgress then e
  else { progress := some newProgress, startTime := seeded }

/-- The percentage the card renders: `progressStates[asset.id] || 0`
(line 523). -/
def displayedProgress (e : ProgressEntry) : ℚ := e.progress.getD 0

/-- Modelled from the spec: the canonical job states of the reconciler's
data model (section 3); the backend reconciler is not under the sources. -/
inductive SpecState
  | pending
  | processing
  | completed
  | failed
  | unknown
deriving DecidableEq

/-- `Completed` and `Failed` are the terminal states. -/
def SpecState.isTerminal : SpecState → Bool
  | .completed => true
  | .failed => true
  | _ => false

/-- Modelled from the spec: a `GenerationJob` record (section 3). -/
structure SpecJob where
  id : String
  externalJobId : Option String
  state : SpecState
  resultLocation : Option String
  errorMessage : Option String
deriving DecidableEq

/-- Modelled from the spec: one Provider Status Client answer (section 4.1) —
a normalized status payload, a transient failure (network/5xx), or a
permanent failure (invalid external id). -/
inductive SpecProviderResp
  | ok (providerState : String) (resultUrl : Option String) (errorMessage : Option String)
  | transientError
  | permanentError (msg : String)
deriving DecidableEq

/-- Modelled from the spec: the outcome tags of `ReconcileOutcome`
(sections 4.2 and 7). -/
inductive SpecOutcomeKind
  | noOp
  | unresolvable
  | retryable
  | jobCompleted
  | jobFailed
  | stillInFlight
deriving DecidableEq

/-- Modelled from the spec: one per-job reconcile outcome
(`{jobId, previousState, newState, updated}`, section 6). -/
structure SpecOutcome where
  jobId : String
  previousState : SpecState
  newState : SpecState
  updated : Bool
  kind : SpecOutcomeKind
deriving DecidableEq

/-- Modelled from the spec: the single-job check of section 4.2 (the backend
endpoint behind `templatesAPI.heygen.recoverPending` is not under the
sources): terminal guard, unresolvable guard, transient errors leave the job
unchanged, permanent errors and provider-reported failures transition to
`failed`, completion with a usable result URL transitions to `completed`,
and still-in-progress confirms `processing` only from `pending`. -/
def specCheckOne (fetchStatus : String → SpecProviderResp) (j : SpecJob) :
    SpecOutcome × SpecJob :=
  if j.state.isTerminal then
    ({ jobId := j.id, previousState := j.state, newState := j.state,
       updated := false, kind := .noOp }, j)
  else
    match j.externalJobId with
    | none =>
        ({ jobId := j.id, previousState := j.state, newState := j.state,
           updated := false, kind := .unresolvable }, j)
    | some eid =>
        match fetchStatus eid with
        | .transientError =>
            ({ jobId := j.id, previousState := j.state, newState := j.state,
               updated := false, kind := .retryable }, j)
        | .permanentError msg =>
            ({ jobId := j.id, previousState := j.state, newState := .failed,
               updated := true, kind := .jobFailed },
             { j with state := .failed, errorMessage := some msg })
        | .ok st url msg =>
            if st == "completed" && strTruthy url then
              ({ jobId := j.id, previousState := j.state, newState := .completed,
                 updated := true, kind := .jobCompleted },
               { j with state := .completed, resultLocation := url, errorMessage := none })
            else if st == "failed" then
              ({ jobId := j.id, previousState := j.state, newState := .failed,
                 updated := true, kind := .jobFailed },
               { j with state := .failed,
                        errorMessage := some (msg.getD "Video generation failed") })
            else
              if j.state == .pending then
                ({ jobId := j.id, previousState := j.state, newState := .processing,
                   updated := true, kind := .stillInFlight },
                 { j with state := .processing })
              else
                ({ jobId := j.id, previousState := j.state, newState := j.state,
                   updated := false, kind := .stillInFlight }, j)

/-- Modelled from the spec: the jobs bulk recovery iterates — every
currently non-terminal, externally-addressable job (section 4.3). -/
def eligibleJobs (jobs : List SpecJob) : List SpecJob :=
  jobs.filter (fun j => !j.state.isTerminal && j.externalJobId.isSome)

/-- Modelled from the spec: `recoverAll` (section 4.3) — each eligible job is
processed independently through the single-job check; per-job provider
failures are captured in that job's outcome entry (the check is total), so
the batch never aborts and one outcome is returned per eligible job. -/
def specRecoverAll (fetchStatus : String → SpecProviderResp) (jobs : List SpecJob) :
    List SpecOutcome :=
  (eligibleJobs jobs).map (fun j => (specCheckOne fetchStatus j).1)

/-- A fixed asset record used to instantiate concrete scenarios; individual
scenarios override the fields they care about. -/
def testAsset : Asset :=
  { id := "a1", title := "t", description := none, instruction := "i",
    tags := none, favorited := false, asset_type := "video", asset_url := none,
    content := none, source_system := some "heygen", created_at := "2024-01-01",
    gif_url := none }

/-- C1 scenario record: a terminal (completed) video whose description still
carries a `video_id` marker. -/
def c1Asset : Asset :=
  { testAsset with asset_url := some "https://x/video.mp4",
                   description := some "video_id:abc" }

/-- C1 scenario provider: reports the job failed. -/
def c1Provider : String → ProviderResult :=
  fun _ => .success { status := "failed", videoUrl := none, errorMessage := some "boom" }

/-- C2 scenario record: plain `pending` placeholder, no description, so no
external id is extractable. -/
def c2Asset : Asset := { testAsset with id := "a2", asset_url := some "pending" }

/-- C3 scenario record: the spec's scenario job, in-flight with embedded
external id `ext-9`. -/
def c3Asset : Asset := { testAsset with asset_url := some "pending_ext-9" }

/-- C3 scenario provider: completed with a usable result URL. -/
def c3Provider : String → ProviderResult :=
  fun v =>
    if v == "ext-9" then
      .success { status := "completed", videoUrl := some "https://x/video.mp4",
                 errorMessage := none }
    else .thrown

/-- C3 scenario stored record before the check. -/
def c3Record : StoredRecord :=
  { url := some "pending_ext-9", status := some "pending", errorMessage := none }

/-- C4 scenario record: in-flight with embedded external id `abc`. -/
def c4Asset : Asset := { testAsset with asset_url := some "pending_abc" }

/-- C4 scenario provider: failed with an explicit provider error message. -/
def c4Provider : String → ProviderResult :=
  fun _ => .success { status := "failed", videoUrl := none, errorMessage := some "boom" }

/-- C5 scenario record: a Pending job (sentinel-prefixed placeholder). -/
def c5Asset : Asset := { testAsset with asset_url := some "pending_abc" }

/-- C5 scenario provider: the job is still in progress. -/
def c5Provider : String → ProviderResult :=
  fun _ => .success { status := "processing", videoUrl := none, errorMessage := none }

/-- C6 scenario record: in-flight with embedded external id. -/
def c6Asset : Asset := { testAsset with asset_url := some "pending_abc" }

/-- C6 scenario provider: the status call itself throws (503). -/
def c6Provider : String → ProviderResult := fun _ => .thrown

/-- C7 scenario jobs: four pending, externally-addressable jobs. -/
def c7Jobs : List SpecJob :=
  [ { id := "j1", externalJobId := some "e1", state := .pending,
      resultLocation := none, errorMessage := none },
    { id := "j2", externalJobId := some "e2", state := .pending,
      resultLocation := none, errorMessage := none },
    { id := "j3", externalJobId := some "e3", state := .pending,
      resultLocation := none, errorMessage := none },
    { id := "j4", externalJobId := some "e4", state := .pending,
      resultLocation := none, errorMessage := none } ]

/-- C7 scenario provider: job 3 (external id `e3`) throws a transient error,
everyone else is still in progress. -/
def c7Fetch : String → SpecProviderResp :=
  fun eid => if eid == "e3" then .transientError else .ok "processing" none none

/-- C10 scenario record: a heygen video whose stored location is the
sentinel-prefixed placeholder. -/
def c10Asset : Asset := { testAsset with asset_url := some "pending_vid42" }

/-- C1 counterexample: a job already terminal (its stored location is the
final URL `https://x/video.mp4`, so it is not in-flight) is rechecked by
`handleRefreshVideo`: the external id `abc` is extracted from the
description, the Provider Status Client is contacted, and the provider's
`failed` reply overwrites the terminal record with `status: failed` — so the
single-job check on a terminal job is neither write-free nor
provider-free. -/
theorem handleRefreshVideo_terminal_counterexample :
    processingFilter c1Asset = false ∧
    strTruthy c1Asset.asset_url = true ∧
    (handleRefreshVideo [c1Asset] "a1" c1Provider true true).contacted = ["abc"] ∧
    (handleRefreshVideo [c1Asset] "a1" c1Provider true true).writes =
      [{ assetId := "a1", url := none, status := some "failed" }] ∧
    (["abc"] : List String) ≠ [] := by
  decide

/-- C1 (amended): `handleRefreshVideo` has no terminal-state guard — for
every asset it finds, it either contacts the per-video status endpoint
(when an external id is extractable) or invokes the bulk-recovery endpoint;
there is no state in which it returns without contacting the backend. -/
theorem handleRefreshVideo_no_terminal_guard
    (assets : List Asset) (assetId : String) (getStatus : String → ProviderResult)
    (bulkOk storeOk : Bool) (asset : Asset)
    (hfind : assets.find? (fun a => a.id == assetId) = some asset) :
    (handleRefreshVideo assets assetId getStatus bulkOk storeOk).calledBulk = true ∨
    (handleRefreshVideo assets assetId getStatus bulkOk storeOk).contacted ≠ [] := by
  cases hex : extractVideoId asset with
  | none => exact Or.inl (by simp [handleRefreshVideo, hfind, hex, bulkBranch])
  | some v =>
    by_cases hv : v = ""
    · exact Or.inl (by simp [handleRefreshVideo, hfind, hex, hv, bulkBranch])
    · exact Or.inr (by simp [handleRefreshVideo, hfind, hex, hv])

/-- C1 witness: the amended theorem applied to the concrete terminal
record. -/
theorem handleRefreshVideo_no_terminal_guard_witness :
    [c1Asset].find? (fun a => a.id == "a1") = some c1Asset ∧
    ((handleRefreshVideo [c1Asset] "a1" c1Provider true true).calledBulk = true ∨
     (handleRefreshVideo [c1Asset] "a1" c1Provider true true).contacted ≠ []) :=
  ⟨by decide,
   handleRefreshVideo_no_terminal_guard [c1Asset] "a1" c1Provider true true c1Asset
     (by decide)⟩

/-- C2 counterexample: for the job with no extractable external id the
single-job check does not return an untouched-record no-op outcome — it
invokes the backend bulk-recovery endpoint. -/
theorem handleRefreshVideo_unresolvable_counterexample :
    extractVideoId c2Asset = none ∧
    (handleRefreshVideo [c2Asset] "a2" (fun _ => ProviderResult.thrown) true true).outcome =
      RefreshOutcome.bulkRecovered ∧
    (handleRefreshVideo [c2Asset] "a2" (fun _ => ProviderResult.thrown) true true).calledBulk =
      true := by
  decide

/-- C2 (amended): when no external id is extractable (extraction yields
nothing, or the JavaScript-falsy empty string), `handleRefreshVideo`
performs no direct write — in particular it never writes `Unknown` — and
contacts no per-video status endpoint, but instead of returning an
Unresolvable no-op it invokes the backend bulk-recovery endpoint. -/
theorem handleRefreshVideo_no_id_bulk_fallback
    (assets : List Asset) (assetId : String) (getStatus : String → ProviderResult)
    (bulkOk storeOk : Bool) (asset : Asset)
    (hfind : assets.find? (fun a => a.id == assetId) = some asset)
    (hex : extractVideoId asset = none ∨ extractVideoId asset = some "") :
    (handleRefreshVideo assets assetId getStatus bulkOk storeOk).calledBulk = true ∧
    (handleRefreshVideo assets assetId getStatus bulkOk storeOk).writes = [] ∧
    (handleRefreshVideo assets assetId getStatus bulkOk storeOk).contacted = [] := by
  rcases hex with h | h <;> simp [handleRefreshVideo, hfind, h, bulkBranch]

/-- C2 witness: the amended theorem applied to the concrete id-less job. -/
theorem handleRefreshVideo_no_id_bulk_fallback_witness :
    extractVideoId c2Asset = none ∧
    ((handleRefreshVideo [c2Asset] "a2" (fun _ => ProviderResult.thrown) true true).calledBulk = true ∧
     (handleRefreshVideo [c2Asset] "a2" (fun _ => ProviderResult.thrown) true true).writes = [] ∧
     (handleRefreshVideo [c2Asset] "a2" (fun _ => ProviderResult.thrown) true true).contacted = []) :=
  ⟨by decide,
   handleRefreshVideo_no_id_bulk_fallback [c2Asset] "a2" (fun _ => ProviderResult.thrown)
     true true c2Asset (by decide) (Or.inl (by decide))⟩

/-- C3: for a non-terminal (in-flight) job with an extractable external id,
when the provider reports completed with a usable (truthy) result URL, the
check reports the completed outcome and performs exactly one store write
setting the result URL and the `completed` status; applied to a stored
record obeying the invariant that a non-terminal record carries no error
message, the resulting record has the provider's URL, status `completed`,
and a null error message, and an update did occur (`updated = true` in the
spec's outcome shape, whose `previousState`/`newState` are the states of the
record before and after the write). -/
theorem handleRefreshVideo_completed_classification
    (assets : List Asset) (assetId : String) (getStatus : String → ProviderResult)
    (bulkOk : Bool) (asset : Asset) (v u : String) (msg : Option String) (jr : StoredRecord)
    (hfind : assets.find? (fun a => a.id == assetId) = some asset)
    (_hflight : processingFilter asset = true)
    (hex : extractVideoId asset = some v) (hv : v ≠ "")
    (hst : getStatus v = .success { status := "completed", videoUrl := some u, errorMessage := msg })
    (hu : u ≠ "") (herr : jr.errorMessage = none) :
    (handleRefreshVideo assets assetId getStatus bulkOk true).outcome = .videoReady ∧
    (handleRefreshVideo assets assetId getStatus bulkOk true).writes =
      [{ assetId := assetId, url := some u, status := some "completed" }] ∧
    (handleRefreshVideo assets assetId getStatus bulkOk true).writes ≠ [] ∧
    applyWrites jr (handleRefreshVideo assets assetId getStatus bulkOk true).writes assetId =
      { url := some u, status := some "completed", errorMessage := none } := by
  simp [handleRefreshVideo, hfind, hex, hv, hst, classifyStatusResponse, strTruthy, hu,
    applyWrites, applyUpdate, herr]

/-- C3 witness: the spec's scenario — pending job with external id `ext-9`,
provider returns completed with `https://x/video.mp4`. -/
theorem handleRefreshVideo_completed_classification_witness :
    processingFilter c3Asset = true ∧
    extractVideoId c3Asset = some "ext-9" ∧
    ((handleRefreshVideo [c3Asset] "a1" c3Provider true true).outcome = .videoReady ∧
     (handleRefreshVideo [c3Asset] "a1" c3Provider true true).writes =
       [{ assetId := "a1", url := some "https://x/video.mp4", status := some "completed" }] ∧
     (handleRefreshVideo [c3Asset] "a1" c3Provider true true).writes ≠ [] ∧
     applyWrites c3Record (handleRefreshVideo [c3Asset] "a1" c3Provider true true).writes "a1" =
       { url := some "https://x/video.mp4", status := some "completed", errorMessage := none }) :=
  ⟨by decide, by decide,
   handleRefreshVideo_completed_classification [c3Asset] "a1" c3Provider true c3Asset
     "ext-9" "https://x/video.mp4" none c3Record (by decide) (by decide) (by decide)
     (by decide) (by decide) (by decide) rfl⟩

/-- C4 counterexample: the provider reports failed with error message
`boom`, yet the stored record after the check has `status: failed` and a
still-null `errorMessage` — the message is never persisted, contradicting
the claim that the check sets `errorMessage` on the stored record. -/
theorem handleRefreshVideo_failed_counterexample :
    c4Provider "abc" =
      .success { status := "failed", videoUrl := none, errorMessage := some "boom" } ∧
    (handleRefreshVideo [c4Asset] "a1" c4Provider true true).writes =
      [{ assetId := "a1", url := none, status := some "failed" }] ∧
    (applyWrites { url := some "pending_abc", status := some "pending", errorMessage := none }
        (handleRefreshVideo [c4Asset] "a1" c4Provider true true).writes "a1").status =
      some "failed" ∧
    (applyWrites { url := some "pending_abc", status := some "pending", errorMessage := none }
        (handleRefreshVideo [c4Asset] "a1" c4Provider true true).writes "a1").errorMessage =
      none := by
  decide

/-- C4 (amended): when the provider reports failed, the check writes the
`failed` status only; the provider's error message (or the default) is shown
in a transient toast and never persisted — the update payload has no
`errorMessage` field, so the stored record's error message is unchanged for
every starting record. -/
theorem handleRefreshVideo_failed_no_message_persisted
    (assets : List Asset) (assetId : String) (getStatus : String → ProviderResult)
    (bulkOk : Bool) (asset : Asset) (v : String) (d : StatusData)
    (hfind : assets.find? (fun a => a.id == assetId) = some asset)
    (hex : extractVideoId asset = some v) (hv : v ≠ "")
    (hst : getStatus v = .success d) (hfail : d.status = "failed") :
    (handleRefreshVideo assets assetId getStatus bulkOk true).outcome = .videoFailed ∧
    (handleRefreshVideo assets assetId getStatus bulkOk true).writes =
      [{ assetId := assetId, url := none, status := some "failed" }] ∧
    ∀ jr : StoredRecord,
      (applyWrites jr (handleRefreshVideo assets assetId getStatus bulkOk true).writes assetId).status
        = some "failed" ∧
      (applyWrites jr (handleRefreshVideo assets assetId getStatus bulkOk true).writes assetId).errorMessage
        = jr.errorMessage ∧
      (applyWrites jr (handleRefreshVideo assets assetId getStatus bulkOk true).writes assetId).url
        = jr.url := by
  simp [handleRefreshVideo, hfind, hex, hv, hst, classifyStatusResponse, hfail,
    applyWrites, applyUpdate]

/-- C4 witness: the amended theorem applied to the concrete failed job. -/
theorem handleRefreshVideo_failed_no_message_persisted_witness :
    extractVideoId c4Asset = some "abc" ∧
    (handleRefreshVideo [c4Asset] "a1" c4Provider true true).outcome = RefreshOutcome.videoFailed ∧
    (applyWrites { url := some "pending_abc", status := some "pending", errorMessage := none }
        (handleRefreshVideo [c4Asset] "a1" c4Provider true true).writes "a1").errorMessage =
      none := by
  have main := handleRefreshVideo_failed_no_message_persisted [c4Asset] "a1" c4Provider true
    c4Asset "abc" { status := "failed", videoUrl := none, errorMessage := some "boom" }
    (by decide) (by decide) (by decide) (by decide) rfl
  exact ⟨by decide, main.1,
    ((main.2.2 { url := some "pending_abc", status := some "pending", errorMessage := none }).2.1).trans rfl⟩

/-- C5 counterexample: a job currently Pending (sentinel-prefixed
placeholder) whose provider reports still-in-progress: the check performs
no write at all — the claimed write of `Processing` for a Pending job does
not happen. -/
theorem handleRefreshVideo_still_in_progress_counterexample :
    c5Asset.asset_url = some "pending_abc" ∧
    processingFilter c5Asset = true ∧
    c5Provider "abc" =
      .success { status := "processing", videoUrl := none, errorMessage := none } ∧
    (handleRefreshVideo [c5Asset] "a1" c5Provider true true).outcome =
      RefreshOutcome.stillProcessing ∧
    (handleRefreshVideo [c5Asset] "a1" c5Provider true true).writes = [] := by
  decide

/-- C5 (amended): when the provider reports the job neither completed (with
a usable URL) nor failed, the check performs no write in any case — even
when the job's current state is Pending it does not write `Processing` — it
persists no UI progress data, and reports the still-in-progress outcome. -/
theorem handleRefreshVideo_still_in_progress_no_write
    (assets : List Asset) (assetId : String) (getStatus : String → ProviderResult)
    (bulkOk storeOk : Bool) (asset : Asset) (v : String) (d : StatusData)
    (hfind : assets.find? (fun a => a.id == assetId) = some asset)
    (_hflight : processingFilter asset = true)
    (hex : extractVideoId asset = some v) (hv : v ≠ "")
    (hst : getStatus v = .success d)
    (hnc : (d.status == "completed" && strTruthy d.videoUrl) = false)
    (hnf : d.status ≠ "failed") :
    (handleRefreshVideo assets assetId getStatus bulkOk storeOk).outcome = .stillProcessing ∧
    (handleRefreshVideo assets assetId getStatus bulkOk storeOk).writes = [] ∧
    (handleRefreshVideo assets assetId getStatus bulkOk storeOk).calledBulk = false := by
  simp [handleRefreshVideo, hfind, hex, hv, hst, classifyStatusResponse, hnc, hnf]

/-- C5 witness: the amended theorem applied to the concrete Pending job. -/
theorem handleRefreshVideo_still_in_progress_no_write_witness :
    processingFilter c5Asset = true ∧
    ((handleRefreshVideo [c5Asset] "a1" c5Provider true true).outcome = .stillProcessing ∧
     (handleRefreshVideo [c5Asset] "a1" c5Provider true true).writes = [] ∧
     (handleRefreshVideo [c5Asset] "a1" c5Provider true true).calledBulk = false) :=
  ⟨by decide,
   handleRefreshVideo_still_in_progress_no_write [c5Asset] "a1" c5Provider true true c5Asset
     "abc" { status := "processing", videoUrl := none, errorMessage := none }
     (by decide) (by decide) (by decide) (by decide) (by decide) (by decide) (by decide)⟩

/-- C6: when the per-video status call throws (a transient failure such as a
503), the check lands in the outer catch — the total embedding returns the
caught-error outcome (the spec's Retryable), performs no store write, and
never invokes bulk recovery; no exception escapes to the caller since the
function is total. -/
theorem handleRefreshVideo_transient_error_no_write
    (assets : List Asset) (assetId : String) (getStatus : String → ProviderResult)
    (bulkOk storeOk : Bool) (asset : Asset) (v : String)
    (hfind : assets.find? (fun a => a.id == assetId) = some asset)
    (hex : extractVideoId asset = some v) (hv : v ≠ "")
    (hst : getStatus v = .thrown) :
    (handleRefreshVideo assets assetId getStatus bulkOk storeOk).outcome = .caughtError ∧
    (handleRefreshVideo assets assetId getStatus bulkOk storeOk).writes = [] ∧
    (handleRefreshVideo assets assetId getStatus bulkOk storeOk).calledBulk = false ∧
    (handleRefreshVideo assets assetId getStatus bulkOk storeOk).contacted = [v] := by
  simp [handleRefreshVideo, hfind, hex, hv, hst, classifyStatusResponse]

/-- C6 witness: the theorem applied to the concrete 503 scenario. -/
theorem handleRefreshVideo_transient_error_no_write_witness :
    extractVideoId c6Asset = some "abc" ∧
    ((handleRefreshVideo [c6Asset] "a1" c6Provider true true).outcome = .caughtError ∧
     (handleRefreshVideo [c6Asset] "a1" c6Provider true true).writes = [] ∧
     (handleRefreshVideo [c6Asset] "a1" c6Provider true true).calledBulk = false ∧
     (handleRefreshVideo [c6Asset] "a1" c6Provider true true).contacted = ["abc"]) :=
  ⟨by decide,
   handleRefreshVideo_transient_error_no_write [c6Asset] "a1" c6Provider true true c6Asset
     "abc" (by decide) (by decide) (by decide) rfl⟩

/-- C7: bulk recovery (modelled from the spec; the backend endpoint is not
under the sources) returns exactly one outcome per currently non-terminal,
externally-addressable job, each produced independently by the single-job
check (a total function, so no exception propagates), and a job whose
provider fetch throws a transient error is marked retryable with no
update — the rest of the batch is unaffected. -/
theorem specRecoverAll_partial_failure
    (fetchStatus : String → SpecProviderResp) (jobs : List SpecJob) :
    (specRecoverAll fetchStatus jobs).length = (eligibleJobs jobs).length ∧
    ∀ i (h : i < (eligibleJobs jobs).length) (h2 : i < (specRecoverAll fetchStatus jobs).length),
      ((specRecoverAll fetchStatus jobs).get ⟨i, h2⟩ =
        (specCheckOne fetchStatus ((eligibleJobs jobs).get ⟨i, h⟩)).1) ∧
      (∀ eid, ((eligibleJobs jobs).get ⟨i, h⟩).externalJobId = some eid →
         fetchStatus eid = .transientError →
         ((specRecoverAll fetchStatus jobs).get ⟨i, h2⟩).kind = SpecOutcomeKind.retryable ∧
         ((specRecoverAll fetchStatus jobs).get ⟨i, h2⟩).updated = false) := by
  constructor
  · simp [specRecoverAll]
  · intro i h h2
    have hget : (specRecoverAll fetchStatus jobs).get ⟨i, h2⟩ =
        (specCheckOne fetchStatus ((eligibleJobs jobs).get ⟨i, h⟩)).1 := by
      simp [specRecoverAll, List.get_eq_getElem, List.getElem_map]
    refine ⟨hget, ?_⟩
    intro eid heid htrans
    have hmem : (eligibleJobs jobs).get ⟨i, h⟩ ∈
        jobs.filter (fun j => !j.state.isTerminal && j.externalJobId.isSome) :=
      List.get_mem _ _ _
    have h3 := (List.mem_filter.mp hmem).2
    simp only [Bool.and_eq_true] at h3
    have hterm : ((eligibleJobs jobs).get ⟨i, h⟩).state.isTerminal = false := by
      simpa using h3.1
    rw [hget]
    set j := (eligibleJobs jobs).get ⟨i, h⟩ with hj
    simp [specCheckOne, hterm, heid, htrans]

/-- C7 witness: four pending jobs, the third of which throws a transient
provider error — all four outcomes are returned and the third is marked
retryable. -/
theorem specRecoverAll_partial_failure_witness :
    (specRecoverAll c7Fetch c7Jobs).length = 4 ∧
    ((specRecoverAll c7Fetch c7Jobs).get ⟨2, by decide⟩).kind = SpecOutcomeKind.retryable ∧
    ((specRecoverAll c7Fetch c7Jobs).get ⟨2, by decide⟩).updated = false := by
  have hel : (2 : Nat) < (eligibleJobs c7Jobs).length := by decide
  have hra : (2 : Nat) < (specRecoverAll c7Fetch c7Jobs).length := by decide
  have main := (specRecoverAll_partial_failure c7Fetch c7Jobs).2 2 hel hra
  have heid : ((eligibleJobs c7Jobs).get ⟨2, by decide⟩).externalJobId = some "e3" := by decide
  have hr := main.2 "e3" heid (by decide)
  exact ⟨((specRecoverAll_partial_failure c7Fetch c7Jobs).1).trans (by decide), hr.1, hr.2⟩

/-- The code's estimate equals the spec's closed form
`min(cap, t / totalDuration * cap)`. -/
theorem estimate_eq_min (t : ℚ) :
    estimate t = min targetProgress (t / totalDuration * targetProgress) := by
  unfold estimate
  split_ifs with h
  · symm
    apply min_eq_left
    rw [div_mul_eq_mul_div, le_div_iff₀ (by norm_num [totalDuration])]
    norm_num [totalDuration, targetProgress] at h ⊢
    nlinarith
  · rfl

/-- C8: the progress estimator is the pure function
`min(cap, t / totalDuration * cap)` with `cap = 92 < 100` and
`totalDuration = 300`; it is zero at zero, non-decreasing, bounded by the
cap, and equal to the cap from `totalDuration` onwards. -/
theorem estimate_reference_bounds :
    targetProgress = 92 ∧ totalDuration = 300 ∧ targetProgress < 100 ∧
    estimate 0 = 0 ∧
    (∀ s t : ℚ, s ≤ t → estimate s ≤ estimate t) ∧
    (∀ t : ℚ, estimate t ≤ targetProgress) ∧
    (∀ t : ℚ, totalDuration ≤ t → estimate t = targetProgress) ∧
    (∀ t : ℚ, estimate t = min targetProgress (t / totalDuration * targetProgress)) := by
  refine ⟨rfl, rfl, by norm_num [targetProgress], ?_, ?_, ?_, ?_, estimate_eq_min⟩
  · rw [estimate_eq_min]
    norm_num [targetProgress, totalDuration]
  · intro s t h
    rw [estimate_eq_min, estimate_eq_min]
    have hd : s / totalDuration ≤ t / totalDuration :=
      div_le_div_of_nonneg_right h (by norm_num [totalDuration])
    exact min_le_min le_rfl (mul_le_mul_of_nonneg_right hd (by norm_num [targetProgress]))
  · intro t
    rw [estimate_eq_min]
    exact min_le_left _ _
  · intro t h
    unfold estimate
    rw [if_pos h]

/-- C8 witness: the bounds applied at concrete elapsed times. -/
theorem estimate_reference_bounds_witness :
    estimate 150 ≤ estimate 200 ∧
    estimate 400 = targetProgress ∧
    estimate 100 = min targetProgress (100 / totalDuration * targetProgress) :=
  ⟨estimate_reference_bounds.2.2.2.2.1 150 200 (by norm_num),
   estimate_reference_bounds.2.2.2.2.2.2.1 400 (by norm_num [totalDuration]),
   estimate_reference_bounds.2.2.2.2.2.2.2 100⟩

/-- C9 counterexample: two independent computations of the displayed
progress for the same job at the same wall-clock instant disagree.  Viewer
A's first tick reads `Date.now()` as 1000000 at line 80 and 1000001 at line
81 (the two calls straddle a millisecond), so the computed percentage
23/75000 differs from 0, the update is kept, and the start time 1000000 is
seeded; at a tick 600 seconds later (both reads 1600000) A displays 92.
Viewer B, freshly mounted, first ticks at the same instant 1600000: its
percentage 0 equals the current 0, line 106 discards the seed, and B
displays 0.  The start time is component-local state, not the job's
submission time, so 92 ≠ 0 at one wall-clock instant refutes the claimed
viewer-independence. -/
theorem tick_restart_counterexample :
    displayedProgress (tick (tick { progress := none, startTime := none } 1000000 1000001)
        1600000 1600000) = 92 ∧
    displayedProgress (tick { progress := none, startTime := none } 1600000 1600000) = 0 ∧
    (92 : ℚ) ≠ 0 := by
  norm_num [tick, displayedProgress, estimate, totalDuration, targetProgress, jsNumOr,
    jsFalsyNum]

/-- C9 (amended): once a truthy (non-zero) start time `s` is stored — which
happens at the first tick whose computed percentage differs from the current
one, with `s` the component-local `Date.now()` of that tick, not the job's
submission time — the displayed progress after a tick whose two time reads
coincide at `now` is the pure function `estimate ((now - s) / 1000)` of
`now - s`, regardless of any previously stored percentage: computations
sharing the stored start time agree, but a restart or an independent viewer
seeds its own start time and can display a different value for the same job
at the same wall-clock instant. -/
theorem tick_display_function_of_local_start (p : Option ℚ) (s now : ℚ) (hs : s ≠ 0) :
    displayedProgress (tick { progress := p, startTime := some s } now now) =
      estimate ((now - s) / 1000) := by
  unfold tick displayedProgress
  have hf : jsFalsyNum (some s) = false := by simp [jsFalsyNum, hs]
  rw [hf]
  simp only [jsNumOr, hf, Bool.false_eq_true, if_false, Option.getD_some]
  by_cases h : estimate ((now - s) / 1000) = p.getD 0
  · simp [h]
  · simp [h]

/-- C9 witness: the amended theorem applied to viewer A's stored start
time. -/
theorem tick_display_function_of_local_start_witness :
    (1000000 : ℚ) ≠ 0 ∧
    displayedProgress (tick { progress := none, startTime := some 1000000 } 1600000 1600000) =
      estimate ((1600000 - 1000000) / 1000) :=
  ⟨by norm_num, tick_display_function_of_local_start none 1000000 1600000 (by norm_num)⟩

/-- C10: for every video asset whose stored location is the sentinel-prefixed
`pending_...` placeholder — which the progress simulation (and the
recover-videos button, for heygen assets) classifies as in-flight — the
upload gate evaluates to true and the social-media upload modal opens,
because the guard excludes only the exact strings `processing` and
`pending`. -/
theorem uploadGate_admits_sentinel (a : Asset) (u : String)
    (hty : a.asset_type = "video") (hurl : a.asset_url = some u)
    (hpend : strStarts u "pending_" = true) :
    uploadGate a = true ∧ processingFilter a = true ∧
    (a.source_system = some "heygen" → pendingHeyGen a = true) := by
  have h1 : u ≠ "" := by rintro rfl; exact absurd hpend (by decide)
  have h2 : u ≠ "processing" := by rintro rfl; exact absurd hpend (by decide)
  have h3 : u ≠ "pending" := by rintro rfl; exact absurd hpend (by decide)
  refine ⟨?_, ?_, ?_⟩
  · simp [uploadGate, hty, hurl, strTruthy, h1, h2, h3]
  · simp [processingFilter, hurl, hpend]
  · intro hs; simp [pendingHeyGen, hurl, hpend, hs]

/-- C10 witness: the theorem applied to a concrete in-flight heygen video. -/
theorem uploadGate_admits_sentinel_witness :
    strStarts "pending_vid42" "pending_" = true ∧
    uploadGate c10Asset = true ∧ processingFilter c10Asset = true ∧
    pendingHeyGen c10Asset = true := by
  have main := uploadGate_admits_sentinel c10Asset "pending_vid42" rfl rfl (by decide)
  exact ⟨by decide, main.1, main.2.1, main.2.2 rfl⟩
